import Mathlib

/-!
Shallow embedding of `clips/environment.py` (clipspy): the `Environment`
class wrapping a native CLIPS engine handle, and the `python_function`
engine callback that dispatches to user-registered Python callables.

Native calls (`lib.Env...`) are modelled by passing their integer return
codes (or, for the engine semantics themselves, a spec-modelled engine
state) as explicit arguments; Python exceptions are modelled with
`Except`.
-/

set_option autoImplicit false

namespace Clipspy

/-- CLIPS boundary value as marshalled by `clips.data.DataObject.value`:
symbols, integers and strings are the cases the embedded code inspects. -/
inductive Value where
  | symbol : String → Value
  | integer : Int → Value
  | str : String → Value
  deriving DecidableEq, Repr

/-- Test used to model `lib.EnvArgTypeCheck(env, ..., 1, CLIPSType.SYMBOL, ...)`:
the check succeeds exactly when the argument is a SYMBOL. -/
def Value.isSymbol : Value → Bool
  | Value.symbol _ => true
  | _ => false

/-- A Python exception object: `className` models `error.__class__.__name__`
and `message` models `str(error)`. -/
structure PyException where
  className : String
  message : String
  deriving DecidableEq, Repr

/-- A registered user callable. It receives the marshalled positional
arguments; normal return is `Except.ok` with `none` modelling Python
`None`, and `Except.error` models a raised exception. -/
def UserFunction : Type := List Value → Except PyException (Option Value)

/-- Lookup in a Python dict modelled as an association list
(first binding for the key wins). -/
def dictLookup {κ α : Type} [DecidableEq κ] : List (κ × α) → κ → Option α
  | [], _ => none
  | (k, v) :: rest, key => if k = key then some v else dictLookup rest key

/-- Python dict item assignment `d[k] = v`: overwrites an existing binding
in place, otherwise appends a new one. -/
def dictInsert {κ α : Type} [DecidableEq κ] : List (κ × α) → κ → α → List (κ × α)
  | [], key, v => [(key, v)]
  | (k, w) :: rest, key, v =>
      if k = key then (key, v) :: rest else (k, w) :: dictInsert rest key v

/-- Python `del d[k]`: removes the binding for `k` (absent keys raise
KeyError in Python; after the statement the key is absent either way). -/
def dictDelete {κ α : Type} [DecidableEq κ] (d : List (κ × α)) (key : κ) :
    List (κ × α) :=
  d.filter fun p => decide (p.1 ≠ key)

/-- Per-environment data stored in `ENVIRONMENT_DATA` (clips.common.EnvData):
the user-function registry and the error router. -/
structure EnvData where
  user_functions : List (String × UserFunction)
  error_router : String

/-- The `RuntimeError()` raised by `python_function` when the first
argument fails the SYMBOL type check. -/
inductive RuntimeError where
  | mk : RuntimeError
  deriving DecidableEq, Repr

/-- Python `str(KeyError(k))` is the repr of the key, i.e. the key in
single quotes (written with \x27 escapes). -/
def keyErrorMessage (key : String) : String :=
  "\x27" ++ key ++ "\x27"

/-- The `@ffi.def_extern` callback `python_function(env, data_object)`
(environment.py lines 214-236). The engine-side call-site arguments
1..argnum are passed as `args`; the returned `Except.ok` value models
the assignment to `data.value`, `Except.error` a propagated
`RuntimeError`. The first argument must be a SYMBOL naming the user
function; the remaining arguments are marshalled in order. The dict
lookup of the function name and its invocation both sit inside the
`try` block, so a missing name (Python `KeyError`) and an exception
raised by the callable are both converted into the diagnostic string
result; a `None` return becomes the symbol `nil`. -/
def python_function (envdata : EnvData) (args : List Value) :
    Except RuntimeError Value :=
  match args with
  | [] => Except.error RuntimeError.mk
  | first :: rest =>
    match first with
    | Value.symbol funcname =>
        let ret : Option Value :=
          match dictLookup envdata.user_functions funcname with
          | none =>
              some (Value.str ("KeyError: " ++ keyErrorMessage funcname))
          | some f =>
            match f rest with
            | Except.ok r => r
            | Except.error e =>
                some (Value.str (e.className ++ ": " ++ e.message))
        Except.ok
          (match ret with
           | some v => v
           | none => Value.symbol "nil")
    | _ => Except.error RuntimeError.mk

/-- A Python function object as passed to `Environment.define_function`:
its `__name__` attribute and its callable behaviour. -/
structure PyFunction where
  name : String
  call : UserFunction

/-- `Environment.define_function` (environment.py lines 202-211):
`ENVIRONMENT_DATA[self._env].user_functions[function.__name__] = function`. -/
def Environment.define_function (d : EnvData) (function : PyFunction) : EnvData :=
  { d with user_functions := dictInsert d.user_functions function.name function.call }

/-- `CLIPSError(self._env)`: the typed error raised when a native call
reports failure (clips.error). -/
inductive CLIPSError where
  | fromEnvironment : CLIPSError
  deriving DecidableEq, Repr

/-- Which native call the Python code issued, for tracking call order. -/
inductive NativeCall where
  | envBload : NativeCall
  | envLoad : NativeCall
  deriving DecidableEq, Repr

/-- `Environment.load` (environment.py lines 128-138). The native return
codes of `lib.EnvBload` and `lib.EnvLoad` are passed in; the result pairs
the Python outcome with the list of native calls actually issued:
`EnvBload` first, `EnvLoad` only when the binary load did not return 1,
`CLIPSError` only when the textual load then also did not return 1. -/
def Environment.load (bloadRet loadRet : Int) :
    Except CLIPSError Unit × List NativeCall :=
  if bloadRet ≠ 1 then
    if loadRet ≠ 1 then
      (Except.error CLIPSError.fromEnvironment,
       [NativeCall.envBload, NativeCall.envLoad])
    else
      (Except.ok (), [NativeCall.envBload, NativeCall.envLoad])
  else
    (Except.ok (), [NativeCall.envBload])

/-- `Environment.save` (environment.py lines 140-153): picks `EnvBsave`
or `EnvSave` by the `binary` flag and raises when the call returns 0. -/
def Environment.save (binary : Bool) (bsaveRet saveRet : Int) :
    Except CLIPSError Unit :=
  let ret := if binary then bsaveRet else saveRet
  if ret = 0 then Except.error CLIPSError.fromEnvironment else Except.ok ()

/-- `Environment.batch_star` (environment.py lines 155-162): raises when
`lib.EnvBatchStar` does not return 1. -/
def Environment.batch_star (batchStarRet : Int) : Except CLIPSError Unit :=
  if batchStarRet ≠ 1 then Except.error CLIPSError.fromEnvironment
  else Except.ok ()

/-- `Environment.build` (environment.py lines 164-171): raises when
`lib.EnvBuild` does not return 1. -/
def Environment.build (buildRet : Int) : Except CLIPSError Unit :=
  if buildRet ≠ 1 then Except.error CLIPSError.fromEnvironment
  else Except.ok ()

/-- `Environment.eval` (environment.py lines 173-184): raises when
`lib.EnvEval` does not return 1, otherwise returns `data.value`. -/
def Environment.eval (evalRet : Int) (value : Value) : Except CLIPSError Value :=
  if evalRet ≠ 1 then Except.error CLIPSError.fromEnvironment
  else Except.ok value

/-- `Environment.reset` (environment.py lines 186-192): calls
`lib.EnvReset(self._env)` and inspects nothing — the native return code
is discarded and the method always returns normally. -/
def Environment.reset (_envResetRet : Int) : Except CLIPSError Unit :=
  Except.ok ()

/-- `Environment.clear` (environment.py lines 194-200): calls
`lib.EnvClear(self._env)` and inspects nothing — the native return code
is discarded and the method always returns normally. -/
def Environment.clear (_envClearRet : Int) : Except CLIPSError Unit :=
  Except.ok ()

/-- The process-wide `ENVIRONMENT_DATA` map from native environment
handles (modelled as `Nat`) to their `EnvData`. -/
abbrev EnvironmentDataMap : Type := List (Nat × EnvData)

/-- The tail of `Environment.__init__` (environment.py line 74):
`ENVIRONMENT_DATA[self._env] = EnvData({}, error_router)`. -/
def Environment.init (envMap : EnvironmentDataMap) (env : Nat) :
    EnvironmentDataMap :=
  dictInsert envMap env (EnvData.mk [] "python-error-router")

/-- `Environment.__del__` (environment.py lines 76-81):
`lib.DestroyEnvironment(self._env); del ENVIRONMENT_DATA[self._env]`
inside a `try` that swallows AttributeError/KeyError/TypeError. When the
native destroy raises (`destroyOk = false`, interpreter shutdown), the
`del` statement is never reached and the map is left unchanged. -/
def Environment.del (destroyOk : Bool) (envMap : EnvironmentDataMap)
    (env : Nat) : EnvironmentDataMap :=
  if destroyOk then dictDelete envMap env else envMap

/-- Modelled from the spec: a fact template (spec section 3), absent from
src/ because it lives in the external CLIPS C engine (`clips._clips.lib`). -/
structure Template where
  name : String
  slots : List String
  deriving DecidableEq, Repr

/-- Modelled from the spec: a rule with a name, a salience and (as the
simplest matcher instance) a single literal fact pattern (spec sections
3 and 4.2); absent from src/ because it lives in the external CLIPS C
engine. -/
structure Rule where
  name : String
  salience : Int
  pattern : List Value
  deriving DecidableEq, Repr

/-- Modelled from the spec: an activation pairs a rule with the fact
tuple that matched it (spec section 3). -/
structure Activation where
  rule : String
  matched : List Value
  deriving DecidableEq, Repr

/-- Modelled from the spec: the engine-side state owned by an
environment — fact store, agenda activations, rule registry and template
registry (spec sections 2 and 3); absent from src/ because it lives in
the external CLIPS C engine. -/
structure EngineState where
  facts : List (List Value)
  activations : List Activation
  rules : List Rule
  templates : List Template
  deriving DecidableEq, Repr

/-- Modelled from the spec: the post-create engine state — empty fact
store, empty agenda, empty registries (spec section 4.5). -/
def EngineState.create : EngineState :=
  EngineState.mk [] [] [] []

/-- Modelled from the spec: the pattern matcher recomputes the
activations a rule set produces on a fact store — one activation per
rule per fact matching its pattern (spec section 4.2, literal-pattern
instance). -/
def computeActivations (rules : List Rule) (facts : List (List Value)) :
    List Activation :=
  rules.flatMap fun r =>
    (facts.filter fun f => decide (f = r.pattern)).map fun f =>
      Activation.mk r.name f

/-- Modelled from the spec: asserting a fact appends it to the fact
store and synchronously restabilises the agenda (spec section 4.1). -/
def EnvAssert (s : EngineState) (f : List Value) : EngineState :=
  let facts := s.facts ++ [f]
  EngineState.mk facts (computeActivations s.rules facts) s.rules s.templates

/-- Modelled from the spec: `lib.EnvReset` clears all facts and
activations but retains rule and template definitions (spec section
4.5); absent from src/ because it lives in the external CLIPS C engine. -/
def EnvReset (s : EngineState) : EngineState :=
  EngineState.mk [] [] s.rules s.templates

/-- Modelled from the spec: `lib.EnvClear` additionally drops rule and
template definitions, returning the engine to its post-create state
(spec section 4.5); absent from src/ because it lives in the external
CLIPS C engine. -/
def EnvClear (_s : EngineState) : EngineState :=
  EngineState.create

/-- Helper: looking up the key just written by dict assignment returns
the written value. -/
theorem dictLookup_dictInsert {κ α : Type} [DecidableEq κ]
    (d : List (κ × α)) (key : κ) (v : α) :
    dictLookup (dictInsert d key v) key = some v := by
  induction d with
  | nil => simp [dictInsert, dictLookup]
  | cons p rest ih =>
      by_cases h : p.1 = key
      · simp [dictInsert, dictLookup, h]
      · simp [dictInsert, dictLookup, h, ih]

/-- Helper: after `del d[k]` the key is absent. -/
theorem dictLookup_dictDelete {κ α : Type} [DecidableEq κ]
    (d : List (κ × α)) (key : κ) :
    dictLookup (dictDelete d key) key = none := by
  induction d with
  | nil => rfl
  | cons p rest ih =>
      by_cases h : p.1 = key
      · simpa [dictDelete, h] using ih
      · simpa [dictDelete, dictLookup, h] using ih

/-- Demo exception used to exercise the callback error path. -/
def valueErrorExc : PyException :=
  PyException.mk "ValueError" "bad input"

/-- Demo user function that always raises. -/
def raisingFn : UserFunction :=
  fun _ => Except.error valueErrorExc

/-- Demo user function that returns Python `None`. -/
def noneFn : UserFunction :=
  fun _ => Except.ok none

/-- Demo user function that returns its second positional argument. -/
def secondArgFn : UserFunction :=
  fun xs => Except.ok (some (xs.getD 1 (Value.symbol "missing")))

/-- Demo environment data with the three demo functions registered. -/
def demoEnvData : EnvData :=
  EnvData.mk [("boom", raisingFn), ("quiet", noneFn), ("pick", secondArgFn)]
    "python-error-router"

/-- C1: when a registered user function raises, `python_function` catches
the exception at the call boundary and sets the callback result to the
diagnostic string "ClassName: message"; the outcome is `Except.ok`, so
nothing propagates out of the callback and the engine's execution loop
is not halted. -/
theorem python_function_contains_callback_exception
    (envdata : EnvData) (funcname : String) (f : UserFunction)
    (args : List Value) (e : PyException)
    (hlookup : dictLookup envdata.user_functions funcname = some f)
    (hraise : f args = Except.error e) :
    python_function envdata (Value.symbol funcname :: args) =
      Except.ok (Value.str (e.className ++ ": " ++ e.message)) := by
  simp [python_function, hlookup, hraise]

/-- Witness for C1 at a concrete registry, function and argument list. -/
theorem python_function_contains_callback_exception_witness :
    dictLookup demoEnvData.user_functions "boom" = some raisingFn ∧
    raisingFn [Value.integer 7] = Except.error valueErrorExc ∧
    python_function demoEnvData [Value.symbol "boom", Value.integer 7] =
      Except.ok (Value.str "ValueError: bad input") :=
  ⟨rfl, rfl,
   python_function_contains_callback_exception demoEnvData "boom" raisingFn
     [Value.integer 7] valueErrorExc rfl rfl⟩

/-- C2 counterexample: invoking an unregistered name does NOT propagate
an error out of `python_function` — the `KeyError` raised by the dict
lookup is inside the `try` block, so the callback returns normally with
the diagnostic string "KeyError: 'foo'" as its result value. -/
theorem python_function_unknown_name_returns_value :
    (python_function (EnvData.mk [] "python-error-router")
        [Value.symbol "foo"]).isOk = true ∧
    python_function (EnvData.mk [] "python-error-router")
        [Value.symbol "foo"] =
      Except.ok (Value.str "KeyError: \x27foo\x27") :=
  ⟨rfl, rfl⟩

/-- C2 amended: for every name missing from the user-function registry,
`python_function` converts the lookup failure into the ordinary result
value "KeyError: 'name'" and returns normally; no error propagates to
the calling operation. -/
theorem python_function_unknown_name_diagnostic
    (envdata : EnvData) (funcname : String) (args : List Value)
    (hlookup : dictLookup envdata.user_functions funcname = none) :
    python_function envdata (Value.symbol funcname :: args) =
      Except.ok (Value.str ("KeyError: " ++ keyErrorMessage funcname)) := by
  simp [python_function, hlookup]

/-- Witness for the amended C2 at a concrete empty registry. -/
theorem python_function_unknown_name_diagnostic_witness :
    dictLookup (EnvData.mk [] "python-error-router").user_functions "foo" =
        none ∧
    python_function (EnvData.mk [] "python-error-router")
        [Value.symbol "foo", Value.integer 1] =
      Except.ok (Value.str ("KeyError: " ++ keyErrorMessage "foo")) :=
  ⟨rfl,
   python_function_unknown_name_diagnostic
     (EnvData.mk [] "python-error-router") "foo" [Value.integer 1] rfl⟩

/-- C3: registering a second callable under the same name overwrites the
previous binding without any error (`define_function` is total), and a
subsequent registry lookup returns the last-registered callable. -/
theorem define_function_last_write_wins
    (d : EnvData) (name : String) (cf cg : UserFunction) :
    dictLookup
      ((Environment.define_function
          (Environment.define_function d (PyFunction.mk name cf))
          (PyFunction.mk name cg)).user_functions) name = some cg := by
  simpa [Environment.define_function] using
    dictLookup_dictInsert
      (Environment.define_function d (PyFunction.mk name cf)).user_functions
      name cg

/-- C4 counterexample: when the native call reports failure (return code
0, the code the checked operations treat as failure), `reset()` and
`clear()` still return normally — the native result is never inspected,
so a native failure is silently ignored rather than raised. -/
theorem reset_clear_ignore_native_failure :
    Environment.reset 0 = Except.ok () ∧ Environment.clear 0 = Except.ok () :=
  ⟨rfl, rfl⟩

/-- C4 amended: `load`, `save`, `batch_star`, `build` and `eval` raise a
typed `CLIPSError` exactly when the native call reports failure, but
`reset()` and `clear()` discard the native result and never raise,
whatever the native outcome. -/
theorem operations_error_raising_policy
    (r bloadRet loadRet bsaveRet saveRet : Int) (binary : Bool) (v : Value) :
    Environment.reset r = Except.ok () ∧
    Environment.clear r = Except.ok () ∧
    (Environment.build r = Except.error CLIPSError.fromEnvironment ↔ r ≠ 1) ∧
    (Environment.batch_star r = Except.error CLIPSError.fromEnvironment ↔
      r ≠ 1) ∧
    (Environment.eval r v = Except.error CLIPSError.fromEnvironment ↔
      r ≠ 1) ∧
    (Environment.save binary bsaveRet saveRet =
        Except.error CLIPSError.fromEnvironment ↔
      (if binary then bsaveRet else saveRet) = 0) ∧
    ((Environment.load bloadRet loadRet).1 =
        Except.error CLIPSError.fromEnvironment ↔
      (bloadRet ≠ 1 ∧ loadRet ≠ 1)) := by
  refine ⟨rfl, rfl, ?_, ?_, ?_, ?_, ?_⟩
  · by_cases h : r = 1 <;> simp [Environment.build, h]
  · by_cases h : r = 1 <;> simp [Environment.batch_star, h]
  · by_cases h : r = 1 <;> simp [Environment.eval, h]
  · by_cases h : (if binary then bsaveRet else saveRet) = 0 <;>
      simp [Environment.save, h]
  · by_cases hb : bloadRet = 1 <;> by_cases hl : loadRet = 1 <;>
      simp [Environment.load, hb, hl]

/-- C5: for a registered function and an engine call site
`(python-function name arg1 ... argn)`, the callback applies the
callable to exactly the n argument values after the name, positionally
and in call-site order, and stores the callable's return value in the
result slot. -/
theorem python_function_positional_dispatch
    (envdata : EnvData) (funcname : String) (f : UserFunction)
    (args : List Value) (v : Value)
    (hlookup : dictLookup envdata.user_functions funcname = some f)
    (hret : f args = Except.ok (some v)) :
    python_function envdata (Value.symbol funcname :: args) = Except.ok v := by
  simp [python_function, hlookup, hret]

/-- Witness for C5: a callable returning its second positional argument
receives the call-site arguments in order, so the result is the second
engine argument after the function name. -/
theorem python_function_positional_dispatch_witness :
    dictLookup demoEnvData.user_functions "pick" = some secondArgFn ∧
    secondArgFn [Value.integer 10, Value.integer 20] =
      Except.ok (some (Value.integer 20)) ∧
    python_function demoEnvData
        [Value.symbol "pick", Value.integer 10, Value.integer 20] =
      Except.ok (Value.integer 20) :=
  ⟨rfl, rfl,
   python_function_positional_dispatch demoEnvData "pick" secondArgFn
     [Value.integer 10, Value.integer 20] (Value.integer 20) rfl rfl⟩

/-- C8: when the registered function returns Python `None` without
raising, the engine-visible result is the symbol `nil`, not an empty
value. -/
theorem python_function_none_becomes_nil
    (envdata : EnvData) (funcname : String) (f : UserFunction)
    (args : List Value)
    (hlookup : dictLookup envdata.user_functions funcname = some f)
    (hret : f args = Except.ok none) :
    python_function envdata (Value.symbol funcname :: args) =
      Except.ok (Value.symbol "nil") := by
  simp [python_function, hlookup, hret]

/-- Witness for C8 at a concrete registry and function returning None. -/
theorem python_function_none_becomes_nil_witness :
    dictLookup demoEnvData.user_functions "quiet" = some noneFn ∧
    noneFn [Value.str "x"] = Except.ok none ∧
    python_function demoEnvData [Value.symbol "quiet", Value.str "x"] =
      Except.ok (Value.symbol "nil") :=
  ⟨rfl, rfl,
   python_function_none_becomes_nil demoEnvData "quiet" noneFn
     [Value.str "x"] rfl rfl⟩

/-- C9: `load` always issues `EnvBload` first, issues `EnvLoad` exactly
when the binary load did not return 1, raises `CLIPSError` exactly when
both attempts fail, and succeeds exactly when either attempt succeeds. -/
theorem load_bload_first_then_textual (bloadRet loadRet : Int) :
    (Environment.load bloadRet loadRet).2.head? = some NativeCall.envBload ∧
    (NativeCall.envLoad ∈ (Environment.load bloadRet loadRet).2 ↔
      bloadRet ≠ 1) ∧
    ((Environment.load bloadRet loadRet).1 =
        Except.error CLIPSError.fromEnvironment ↔
      (bloadRet ≠ 1 ∧ loadRet ≠ 1)) ∧
    ((Environment.load bloadRet loadRet).1 = Except.ok () ↔
      (bloadRet = 1 ∨ loadRet = 1)) := by
  by_cases hb : bloadRet = 1 <;> by_cases hl : loadRet = 1 <;>
    simp [Environment.load, hb, hl]

/-- C10: when the first engine-side argument is not a SYMBOL, the
`EnvArgTypeCheck` guard fails and `python_function` raises
`RuntimeError` before any user function is consulted; the error
propagates (the outcome is `Except.error`) and is not converted into a
diagnostic string result, whatever the registry holds. -/
theorem python_function_type_check_propagates
    (envdata : EnvData) (first : Value) (args : List Value)
    (h : first.isSymbol = false) :
    python_function envdata (first :: args) =
      Except.error RuntimeError.mk := by
  cases first with
  | symbol s => simp [Value.isSymbol] at h
  | integer n => rfl
  | str s => rfl

/-- Witness for C10: an integer first argument triggers the propagated
RuntimeError even in a registry with functions defined. -/
theorem python_function_type_check_propagates_witness :
    (Value.integer 3).isSymbol = false ∧
    python_function demoEnvData [Value.integer 3, Value.symbol "boom"] =
      Except.error RuntimeError.mk :=
  ⟨rfl,
   python_function_type_check_propagates demoEnvData (Value.integer 3)
     [Value.symbol "boom"] rfl⟩

/-- C6: after `reset` the fact store and the agenda are empty while
every previously defined rule and template remains defined, and a
retained rule produces an activation again once its triggering fact is
re-asserted; after `clear` the rule and template definitions are also
dropped, leaving exactly the post-create engine state. -/
theorem reset_retains_rules_clear_drops_them
    (s : EngineState) (r : Rule) (hr : r ∈ s.rules) :
    (EnvReset s).facts = [] ∧
    (EnvReset s).activations = [] ∧
    (EnvReset s).rules = s.rules ∧
    (EnvReset s).templates = s.templates ∧
    Activation.mk r.name r.pattern ∈
      (EnvAssert (EnvReset s) r.pattern).activations ∧
    EnvClear s = EngineState.create := by
  refine ⟨rfl, rfl, rfl, rfl, ?_, rfl⟩
  simp only [EnvAssert, EnvReset, computeActivations, List.nil_append,
    List.mem_flatMap]
  exact ⟨r, hr, by simp⟩

/-- Demo rule for the engine-state witness. -/
def demoRule : Rule :=
  Rule.mk "r1" 0 [Value.str "trigger"]

/-- Demo engine state holding one fact, one activation, one rule and one
template. -/
def demoEngine : EngineState :=
  EngineState.mk [[Value.str "trigger"]]
    [Activation.mk "r1" [Value.str "trigger"]] [demoRule]
    [Template.mk "t" ["slot"]]

/-- Witness for C6 at a concrete engine state and rule. -/
theorem reset_retains_rules_clear_drops_them_witness :
    demoRule ∈ demoEngine.rules ∧
    ((EnvReset demoEngine).facts = [] ∧
     (EnvReset demoEngine).activations = [] ∧
     (EnvReset demoEngine).rules = demoEngine.rules ∧
     (EnvReset demoEngine).templates = demoEngine.templates ∧
     Activation.mk demoRule.name demoRule.pattern ∈
       (EnvAssert (EnvReset demoEngine) demoRule.pattern).activations ∧
     EnvClear demoEngine = EngineState.create) :=
  ⟨by decide,
   reset_retains_rules_clear_drops_them demoEngine demoRule (by decide)⟩

/-- C7: destroying an environment (a `__del__` in which the native
`DestroyEnvironment` call completes) removes its entry — the
user-function registry together with its error router — from the
process-wide `ENVIRONMENT_DATA` map, so no callback registered on that
environment remains reachable through the map. -/
theorem del_removes_environment_data
    (envMap : EnvironmentDataMap) (env : Nat) :
    dictLookup (Environment.del true envMap env) env = none := by
  simpa [Environment.del] using dictLookup_dictDelete envMap env

end Clipspy
